import Mathlib

/-!
# server.js: terminology search, consolidation and EMR submission

A shallow embedding of `src/server.js`.  JavaScript values that reach the
server from the outside (parsed JSON bodies, query parameters) are modelled
by `JsVal`; an `async` function is modelled by the settlement of its promise,
`Except JsError α` (`.ok` is a resolved promise, `.error` a rejected one); the
outbound axios calls are parameters of the model (`Env`).
-/

namespace NamasteServer

/-! ## JavaScript values -/

/-- A JavaScript value as produced by a JSON parser (plus `undefined`, the
value of an absent property).  Numbers are only stored, copied and tested for
being zero by the server, never computed with; they are carried as rationals. -/
inductive JsVal where
  | undefined
  | null
  | bool (b : Bool)
  | num (n : Rat)
  | str (s : String)
  | arr (items : List JsVal)
  | obj (props : List (String × JsVal))

/-- A thrown JavaScript error. -/
inductive JsError where
  | typeError (message : String)
  | error (message : String)
  deriving DecidableEq

namespace JsVal

/-- JavaScript truthiness (`ToBoolean`): `!v` is `!(truthy v)`. -/
def truthy : JsVal → Bool
  | undefined => false
  | null => false
  | bool b => b
  | num n => n != 0
  | str s => s != ""
  | arr _ => true
  | obj _ => true

/-- Whether property reads on the value succeed: everything but `null` and
`undefined`. -/
def hasProps : JsVal → Bool
  | undefined => false
  | null => false
  | _ => true

/-- Property read `v.name`, for the property names the server reads (`code`,
`display`, `destinationEntities`, `patientId`, ...), none of which is defined
on a built-in prototype: an own property of an object, `undefined` on every
other value, and a `TypeError` on `null` and `undefined`. -/
def getProp (v : JsVal) (name : String) : Except JsError JsVal :=
  match v with
  | undefined => .error (.typeError ("Cannot read properties of undefined (reading " ++ name ++ ")"))
  | null => .error (.typeError ("Cannot read properties of null (reading " ++ name ++ ")"))
  | obj props => .ok ((props.lookup name).getD undefined)
  | _ => .ok undefined

/-- The comparison `SameValueZero` that `Map` uses on keys.  Objects and
arrays are compared by reference; every object that JSON parsing yields is a
fresh reference, so two keys of that kind are never the same. -/
def sameValueZero : JsVal → JsVal → Bool
  | undefined, undefined => true
  | null, null => true
  | bool a, bool b => a == b
  | num a, num b => a == b
  | str a, str b => a == b
  | _, _ => false

end JsVal

open JsVal

/-- Sequential evaluation of a callback over the items of an array. -/
def mapItems {β : Type} (f : JsVal → Except JsError β) : List JsVal → Except JsError (List β)
  | [] => .ok []
  | x :: xs =>
    match f x with
    | .error e => .error e
    | .ok y =>
      match mapItems f xs with
      | .error e => .error e
      | .ok ys => .ok (y :: ys)

/-- The method call `v.map(f)`: `Array.prototype.map` on an array; on any other
value `map` is not callable (a JSON value is never a function) or the value has
no properties at all, and the call throws a `TypeError`. -/
def callMap {β : Type} (v : JsVal) (f : JsVal → Except JsError β) : Except JsError (List β) :=
  match v with
  | arr items => mapItems f items
  | undefined => .error (.typeError "Cannot read properties of undefined (reading map)")
  | null => .error (.typeError "Cannot read properties of null (reading map)")
  | _ => .error (.typeError "map is not a function")

/-! ## `Map` -/

/-- A JavaScript `Map`: its entries in insertion order. -/
abbrev JsMap := List (JsVal × JsVal)

namespace JsMap

/-- The method `Map.prototype.set`: overwrite the value of the entry with the
same key, or append a new entry. -/
def set : JsMap → JsVal → JsVal → JsMap
  | [], k, v => [(k, v)]
  | (k', v') :: rest, k, v =>
    if sameValueZero k' k then (k', v) :: rest else (k', v') :: set rest k v

/-- The constructor `new Map(entries)`: `set` each entry in turn. -/
def ofEntries (entries : List (JsVal × JsVal)) : JsMap :=
  entries.foldl (fun m e => set m e.1 e.2) []

/-- The method `Map.prototype.has`. -/
def has (m : JsMap) (k : JsVal) : Bool :=
  m.any (fun e => sameValueZero e.1 k)

/-- The method `Map.prototype.get`. -/
def get (m : JsMap) (k : JsVal) : JsVal :=
  match m.find? (fun e => sameValueZero e.1 k) with
  | some e => e.2
  | none => undefined

end JsMap

/-! ## Data of the server -/

/-- The `display` object of a mapping record. -/
structure Display where
  namaste : String
  icd11 : String

/-- A record of the local mapping table. -/
structure MappingRecord where
  namaste_code : String
  icd11_code : String
  confidence : Rat
  display : Display

/-- The hardcoded mapping table, `localMapping` (lines 24-43). -/
def localMapping : List MappingRecord :=
  [ { namaste_code := "AY-A01.0", icd11_code := "MG00.1", confidence := 0.95,
      display := { namaste := "Amavata", icd11 := "Rheumatoid arthritis" } },
    { namaste_code := "AY-B01.1", icd11_code := "MG10.0", confidence := 0.90,
      display := { namaste := "Jvara (Fever)", icd11 := "Fever of unknown origin" } } ]

/-- An element of `matchedSuggestions`. -/
structure Suggestion where
  suggestion_id : String
  namaste_diagnosis : JsVal
  icd11_diagnosis : JsVal
  confidence : Rat

/-! ## Outbound HTTP -/

/-- What happens to an outbound HTTP request: no response at all (a transport
error), or a response with a status and a parsed body. -/
inductive HttpExchange where
  | noResponse (reason : String)
  | response (status : Nat) (data : JsVal)

/-- The `response` object of a resolved axios call. -/
structure AxiosResponse where
  status : Nat
  data : JsVal

/-- An axios request with the default `validateStatus`: the promise resolves
on a 2xx status and rejects on a transport error and on every other status. -/
def axiosRequest : HttpExchange → Except JsError AxiosResponse
  | .noResponse reason => .error (.error reason)
  | .response status data =>
    if 200 ≤ status ∧ status < 300 then .ok { status := status, data := data }
    else .error (.error ("Request failed with status code " ++ toString status))

/-- The three external services: the exchange that each request meets. -/
structure Env where
  icd11Api : JsVal → HttpExchange
  namasteApi : JsVal → HttpExchange
  emrApi : JsVal → HttpExchange

/-- The statement `try { body } catch (error) { handler }`. -/
def tryCatch {α : Type} (body : Except JsError α) (handler : JsError → Except JsError α) :
    Except JsError α :=
  match body with
  | .ok a => .ok a
  | .error e => handler e

/-- The function `getICD11Codes` (lines 52-69). -/
def getICD11Codes (env : Env) (query : JsVal) : Except JsError JsVal :=
  tryCatch
    (do
      let response ← axiosRequest (env.icd11Api query)
      let destinationEntities ← getProp response.data "destinationEntities"
      pure (if truthy destinationEntities then destinationEntities else arr []))
    (fun _ => pure (arr []))

/-- The function `getNAMASTECodes` (lines 75-86). -/
def getNAMASTECodes (env : Env) (query : JsVal) : Except JsError JsVal :=
  tryCatch
    (do
      let response ← axiosRequest (env.namasteApi query)
      pure response.data)
    (fun _ => pure (arr []))

/-- The value that `submitDiagnosisToEMR` resolves to. -/
structure EmrOutcome where
  status : String
  message : String
  deriving DecidableEq

/-- The function `submitDiagnosisToEMR` (lines 92-110). -/
def submitDiagnosisToEMR (env : Env) (patientData : JsVal) : Except JsError EmrOutcome :=
  tryCatch
    (do
      let response ← axiosRequest (env.emrApi patientData)
      if response.status = 201 then
        pure { status := "success", message := "Diagnosis submitted successfully" }
      else
        pure { status := "error", message := "Failed to submit diagnosis" })
    (fun _ => pure { status := "error", message := "Internal server error" })

/-! ## The search endpoint -/

/-- The callback `item => [item.code, item]` (lines 137-138). -/
def codeEntry (item : JsVal) : Except JsError (JsVal × JsVal) :=
  match getProp item "code" with
  | .error e => .error e
  | .ok code => .ok (code, item)

/-- One turn of the `forEach` callback (lines 141-151): push a suggestion
when both codes of the mapping are keys of the lookups. -/
def pushIfMatched (namasteMap icd11Map : JsMap) (matchedSuggestions : List Suggestion)
    (mapping : MappingRecord) : List Suggestion :=
  if JsMap.has namasteMap (str mapping.namaste_code) && JsMap.has icd11Map (str mapping.icd11_code) then
    matchedSuggestions ++
      [{ suggestion_id := mapping.namaste_code ++ "-" ++ mapping.icd11_code,
         namaste_diagnosis := JsMap.get namasteMap (str mapping.namaste_code),
         icd11_diagnosis := JsMap.get icd11Map (str mapping.icd11_code),
         confidence := mapping.confidence }]
  else matchedSuggestions

/-- The consolidation step of `GET /api/search-codes` (lines 136-151), over an
arbitrary mapping table: build the two lookups, then walk the table. -/
def consolidate (localMapping : List MappingRecord) (icd11Results namasteResults : JsVal) :
    Except JsError (List Suggestion) :=
  match callMap namasteResults codeEntry with
  | .error e => .error e
  | .ok namasteEntries =>
    match callMap icd11Results codeEntry with
    | .error e => .error e
    | .ok icd11Entries =>
      .ok (localMapping.foldl
        (pushIfMatched (JsMap.ofEntries namasteEntries) (JsMap.ofEntries icd11Entries)) [])

/-- A call of one of the three client functions, with its argument. -/
inductive Call where
  | getICD11Codes (query : JsVal)
  | getNAMASTECodes (query : JsVal)
  | submitDiagnosisToEMR (patientData : JsVal)

/-- The body passed to `res.json`. -/
inductive ResponseBody where
  | errorMessage (error : String)
  | searchResult (matchedSuggestions : List Suggestion) (rawIcd11Results rawNamasteResults : JsVal)
  | emrOutcome (result : EmrOutcome)

/-- The response sent by a handler (`res.status(...)`, 200 when not set). -/
structure Response where
  status : Nat
  body : ResponseBody

/-- An incoming request: the parsed query string and the parsed body. -/
structure Request where
  query : List (String × JsVal)
  body : JsVal

/-- A run of a handler: the client functions it called, in order, and the
settlement of the handler (`.ok` a sent response, `.error` an error thrown out
of the handler with no response sent). -/
structure Run where
  calls : List Call
  result : Except JsError Response

/-- The handler of `GET /api/search-codes` (lines 121-158), over an arbitrary
mapping table. -/
def searchCodes (env : Env) (localMapping : List MappingRecord) (req : Request) : Run :=
  let query := (req.query.lookup "q").getD undefined
  if !truthy query then
    { calls := [], result := .ok { status := 400, body := .errorMessage "Query parameter 'q' is required" } }
  else
    { calls := [.getICD11Codes query, .getNAMASTECodes query],
      result := do
        let icd11Results ← getICD11Codes env query
        let namasteResults ← getNAMASTECodes env query
        let matchedSuggestions ← consolidate localMapping icd11Results namasteResults
        pure { status := 200,
               body := .searchResult matchedSuggestions icd11Results namasteResults } }

/-! ## The submission endpoint -/

/-- The object literal `patientPayload` (lines 172-187). -/
def patientPayload (data : JsVal) : Except JsError JsVal := do
  let patientId ← getProp data "patientId"
  let encounterDate ← getProp data "encounterDate"
  let namasteDiagnosis ← getProp data "namasteDiagnosis"
  let namasteCode ← getProp namasteDiagnosis "code"
  let namasteDisplay ← getProp namasteDiagnosis "display"
  let icd11Code ← getProp data "icd11Code"
  let icd11CodeCode ← getProp icd11Code "code"
  let icd11CodeDisplay ← getProp icd11Code "display"
  pure (obj
    [ ("patientId", patientId),
      ("encounterDate", encounterDate),
      ("diagnoses", arr
        [ obj [("system", str "NAMASTE"), ("code", namasteCode), ("display", namasteDisplay)],
          obj [("system", str "ICD11-TM2"), ("code", icd11CodeCode), ("display", icd11CodeDisplay)] ]) ])

/-- The guard of line 166, `!data || !data.patientId || !data.namasteDiagnosis
|| !data.icd11Code`, with the short circuit of `||`. -/
def missingPatientData (data : JsVal) : Except JsError Bool :=
  if !truthy data then .ok true
  else do
    let patientId ← getProp data "patientId"
    if !truthy patientId then pure true
    else do
      let namasteDiagnosis ← getProp data "namasteDiagnosis"
      if !truthy namasteDiagnosis then pure true
      else do
        let icd11Code ← getProp data "icd11Code"
        pure (!truthy icd11Code)

/-- The handler of `POST /api/submit-patient-record` (lines 161-195). -/
def submitPatientRecord (env : Env) (req : Request) : Run :=
  let data := req.body
  match missingPatientData data with
  | .error e => { calls := [], result := .error e }
  | .ok true =>
    { calls := [], result := .ok { status := 400, body := .errorMessage "Missing required patient data" } }
  | .ok false =>
    match patientPayload data with
    | .error e => { calls := [], result := .error e }
    | .ok payload =>
      { calls := [.submitDiagnosisToEMR payload],
        result :=
          match submitDiagnosisToEMR env payload with
          | .error e => .error e
          | .ok result =>
            if result.status = "success" then .ok { status := 201, body := .emrOutcome result }
            else .ok { status := 500, body := .emrOutcome result } }

/-! ## Reading the results by code -/

/-- The value of `item.code` when the read succeeds (`undefined` otherwise). -/
def codeOf (item : JsVal) : JsVal :=
  match getProp item "code" with
  | .ok code => code
  | .error _ => undefined

/-- Whether `item.code` is the string `c`. -/
def hasCode (c : String) (item : JsVal) : Bool :=
  match codeOf item with
  | str s => s == c
  | _ => false

/-- A sequence of results: no entry is `null` or `undefined`. -/
def isResultSeq (results : List JsVal) : Bool :=
  results.all hasProps

/-- The last entry of the sequence whose code is `c` (`undefined` when there
is none). -/
def lastWithCode (c : String) (results : List JsVal) : JsVal :=
  match (results.filter (hasCode c)).getLast? with
  | some item => item
  | none => undefined

/-- No string code is carried by two entries of the sequence. -/
def DistinctCodes (results : List JsVal) : Prop :=
  results.Pairwise (fun a b => ∀ c, hasCode c a = true → hasCode c b = false)

/-- Whether both codes of the record occur in the results. -/
def bothPresent (icd11Results namasteResults : List JsVal) (mapping : MappingRecord) : Bool :=
  namasteResults.any (hasCode mapping.namaste_code) && icd11Results.any (hasCode mapping.icd11_code)

/-- The suggestion described for a matched record: the identifier joins the
two codes with a dash, the diagnoses are the entries found under the two
codes, the confidence is the record's. -/
def suggestionFor (icd11Results namasteResults : List JsVal) (mapping : MappingRecord) : Suggestion :=
  { suggestion_id := mapping.namaste_code ++ "-" ++ mapping.icd11_code,
    namaste_diagnosis := lastWithCode mapping.namaste_code namasteResults,
    icd11_diagnosis := lastWithCode mapping.icd11_code icd11Results,
    confidence := mapping.confidence }

/-- The description of the output: walk the table from first to last record
and keep exactly the records whose two codes are both present. -/
def walkTable (localMapping : List MappingRecord) (icd11Results namasteResults : List JsVal) :
    List Suggestion :=
  (localMapping.filter (bothPresent icd11Results namasteResults)).map
    (suggestionFor icd11Results namasteResults)

/-! ## Sample data -/

/-- The first record of `localMapping`. -/
def amavataRecord : MappingRecord :=
  { namaste_code := "AY-A01.0", icd11_code := "MG00.1", confidence := 0.95,
    display := { namaste := "Amavata", icd11 := "Rheumatoid arthritis" } }

/-- The second record of `localMapping`. -/
def jvaraRecord : MappingRecord :=
  { namaste_code := "AY-B01.1", icd11_code := "MG10.0", confidence := 0.90,
    display := { namaste := "Jvara (Fever)", icd11 := "Fever of unknown origin" } }

/-- A national result with code `AY-A01.0`. -/
def amavata : JsVal := obj [("code", str "AY-A01.0"), ("display", str "Amavata")]

/-- Another national result with the same code `AY-A01.0`. -/
def amavataAgain : JsVal := obj [("code", str "AY-A01.0"), ("display", str "Aamavata")]

/-- A national result with code `AY-B01.1`. -/
def jvara : JsVal := obj [("code", str "AY-B01.1"), ("display", str "Jvara (Fever)")]

/-- An international result with code `MG00.1`. -/
def rheumatoid : JsVal := obj [("code", str "MG00.1"), ("title", str "Rheumatoid arthritis")]

/-- An international result with code `MG10.0`. -/
def fever : JsVal := obj [("code", str "MG10.0"), ("title", str "Fever of unknown origin")]

/-- The identifier and the confidence of a suggestion. -/
def idAndConfidence (s : Suggestion) : String × Rat :=
  (s.suggestion_id, s.confidence)

/-- An environment in which the EMR answers every submission with the given
status and an empty body, and both terminology services are unreachable. -/
def emrAnswering (status : Nat) : Env :=
  { icd11Api := fun _ => .noResponse "connect ECONNREFUSED",
    namasteApi := fun _ => .noResponse "connect ECONNREFUSED",
    emrApi := fun _ => .response status (obj []) }

/-- An environment in which the international service answers 503 and the
national service answers 200 with the one result `AY-A01.0`. -/
def icd11Down : Env :=
  { icd11Api := fun _ => .response 503 (str "Service Unavailable"),
    namasteApi := fun _ => .response 200 (arr [amavata]),
    emrApi := fun _ => .noResponse "connect ECONNREFUSED" }

/-- An environment in which the international service answers 503 and the
national service answers 200 with a JSON object instead of a list. -/
def icd11DownNamasteEnvelope : Env :=
  { icd11Api := fun _ => .response 503 (str "Service Unavailable"),
    namasteApi := fun _ => .response 200 (obj [("results", arr [amavata])]),
    emrApi := fun _ => .noResponse "connect ECONNREFUSED" }

/-- An environment in which the national service answers 200 with a JSON
object instead of a list, and the international service answers 200 with no
destination entity. -/
def namasteEnvelope : Env :=
  { icd11Api := fun _ => .response 200 (obj [("destinationEntities", arr [])]),
    namasteApi := fun _ => .response 200 (obj [("results", arr [amavata])]),
    emrApi := fun _ => .noResponse "connect ECONNREFUSED" }

/-- An environment in which the international service answers 200 with a JSON
object that has no `destinationEntities`, and the national service answers 200
with an empty list. -/
def icd11Envelope : Env :=
  { icd11Api := fun _ => .response 200 (obj [("results", arr [rheumatoid])]),
    namasteApi := fun _ => .response 200 (arr []),
    emrApi := fun _ => .noResponse "connect ECONNREFUSED" }

/-- The value of `v.name` when the read succeeds (`undefined` otherwise). -/
def propOf (v : JsVal) (name : String) : JsVal :=
  match getProp v name with
  | .ok value => value
  | .error _ => undefined

/-- The condition under which the guard of line 166 lets a body through: the
body and its three required fields are truthy. -/
def requiredFieldsTruthy (data : JsVal) : Bool :=
  truthy data && truthy (propOf data "patientId") && truthy (propOf data "namasteDiagnosis")
    && truthy (propOf data "icd11Code")

/-- A submission whose `patientId` is present and is the empty string. -/
def emptyPatientId : JsVal :=
  obj [ ("patientId", str ""),
        ("encounterDate", str "2024-01-15"),
        ("namasteDiagnosis", obj [("code", str "AY-A01.0"), ("display", str "Amavata")]),
        ("icd11Code", obj [("code", str "MG00.1"), ("display", str "Rheumatoid arthritis")]) ]

/-- A submission with all the required fields. -/
def completeSubmission : JsVal :=
  obj [ ("patientId", str "P-001"),
        ("encounterDate", str "2024-01-15"),
        ("namasteDiagnosis", obj [("code", str "AY-A01.0"), ("display", str "Amavata")]),
        ("icd11Code", obj [("code", str "MG00.1"), ("display", str "Rheumatoid arthritis")]) ]

/-! ## Lemmas on `Map` -/

theorem sameValueZero_eq {a b : JsVal} (h : sameValueZero a b = true) : a = b := by
  cases a <;> cases b <;> simp_all [sameValueZero]

theorem sameValueZero_codeOf (c : String) (item : JsVal) :
    sameValueZero (codeOf item) (str c) = hasCode c item := by
  unfold hasCode
  cases codeOf item <;> simp [sameValueZero]

theorem JsMap.has_set (m : JsMap) (k v q : JsVal) :
    JsMap.has (JsMap.set m k v) q = (JsMap.has m q || sameValueZero k q) := by
  induction m with
  | nil => simp [JsMap.set, JsMap.has]
  | cons e rest ih =>
    obtain ⟨k', v'⟩ := e
    unfold JsMap.set
    by_cases hk : sameValueZero k' k = true
    · have := sameValueZero_eq hk
      subst this
      simp only [hk, if_true]
      simp [JsMap.has]
      cases sameValueZero k' q <;> simp
    · simp only [hk]
      simp only [JsMap.has] at ih ⊢
      simp [ih, Bool.or_assoc]

theorem JsMap.get_set (m : JsMap) (k v q : JsVal) :
    JsMap.get (JsMap.set m k v) q = if sameValueZero k q then v else JsMap.get m q := by
  induction m with
  | nil => cases h : sameValueZero k q <;> simp [JsMap.set, JsMap.get, List.find?, h]
  | cons e rest ih =>
    obtain ⟨k', v'⟩ := e
    unfold JsMap.set
    by_cases hk : sameValueZero k' k = true
    · have := sameValueZero_eq hk
      subst this
      simp only [hk, if_true]
      by_cases hq : sameValueZero k' q = true
      · simp [JsMap.get, List.find?, hq]
      · simp [JsMap.get, List.find?, hq]
    · simp only [hk]
      by_cases hq : sameValueZero k' q = true
      · have hkq : sameValueZero k q = false := by
          have := sameValueZero_eq hq
          subst this
          cases h : sameValueZero k k'
          · rfl
          · have := sameValueZero_eq h
            subst this
            simp_all
        simp [JsMap.get, List.find?, hq, hkq]
      · simp only [JsMap.get, List.find?, hq] at ih ⊢
        exact ih

theorem JsMap.has_foldl_set (entries : List (JsVal × JsVal)) (m : JsMap) (q : JsVal) :
    JsMap.has (entries.foldl (fun m e => JsMap.set m e.1 e.2) m) q
      = (JsMap.has m q || entries.any (fun e => sameValueZero e.1 q)) := by
  induction entries generalizing m with
  | nil => simp
  | cons e rest ih => simp [List.foldl, ih, JsMap.has_set, Bool.or_assoc]

theorem JsMap.get_foldl_set (entries : List (JsVal × JsVal)) (m : JsMap) (q : JsVal) :
    JsMap.get (entries.foldl (fun m e => JsMap.set m e.1 e.2) m) q
      = match (entries.filter (fun e => sameValueZero e.1 q)).getLast? with
        | some e => e.2
        | none => JsMap.get m q := by
  induction entries generalizing m with
  | nil => simp
  | cons e rest ih =>
    simp only [List.foldl, ih, JsMap.get_set]
    by_cases he : sameValueZero e.1 q = true
    · simp only [List.filter, he]
      cases hr : List.filter (fun e => sameValueZero e.1 q) rest with
      | nil => simp
      | cons a l =>
        cases hl : (e :: a :: l).getLast? with
        | none => simp at hl
        | some b =>
          rw [List.getLast?_cons_cons] at hl
          simp [hl]
    · simp only [List.filter, he]
      simp

theorem JsMap.has_ofEntries (entries : List (JsVal × JsVal)) (q : JsVal) :
    JsMap.has (JsMap.ofEntries entries) q = entries.any (fun e => sameValueZero e.1 q) := by
  unfold JsMap.ofEntries
  rw [JsMap.has_foldl_set]
  simp [JsMap.has]

theorem JsMap.get_ofEntries (entries : List (JsVal × JsVal)) (q : JsVal) :
    JsMap.get (JsMap.ofEntries entries) q
      = match (entries.filter (fun e => sameValueZero e.1 q)).getLast? with
        | some e => e.2
        | none => undefined := by
  unfold JsMap.ofEntries
  rw [JsMap.get_foldl_set]
  simp [JsMap.get]

/-! ## Lemmas on the consolidation step -/

theorem codeEntry_of_hasProps {item : JsVal} (h : hasProps item = true) :
    codeEntry item = .ok (codeOf item, item) := by
  cases item <;> simp_all [hasProps, codeEntry, codeOf, getProp]

theorem mapItems_codeEntry {results : List JsVal} (h : isResultSeq results = true) :
    mapItems codeEntry results = .ok (results.map (fun item => (codeOf item, item))) := by
  induction results with
  | nil => rfl
  | cons x xs ih =>
    simp only [isResultSeq, List.all_cons, Bool.and_eq_true] at h
    have hxs : isResultSeq xs = true := h.2
    simp [mapItems, codeEntry_of_hasProps h.1, ih hxs]

theorem has_lookup (results : List JsVal) (c : String) :
    JsMap.has (JsMap.ofEntries (results.map (fun item => (codeOf item, item)))) (str c)
      = results.any (hasCode c) := by
  rw [JsMap.has_ofEntries]
  induction results with
  | nil => rfl
  | cons x xs ih => simp only [List.map, List.any, sameValueZero_codeOf, ih]

theorem get_lookup (results : List JsVal) (c : String) :
    JsMap.get (JsMap.ofEntries (results.map (fun item => (codeOf item, item)))) (str c)
      = lastWithCode c results := by
  rw [JsMap.get_ofEntries, lastWithCode, List.filter_map]
  simp only [Function.comp_def, sameValueZero_codeOf, List.getLast?_map]
  cases (List.filter (fun x => hasCode c x) results).getLast? <;> rfl

theorem foldl_pushIfMatched (namasteMap icd11Map : JsMap) (table : List MappingRecord)
    (acc : List Suggestion) :
    table.foldl (pushIfMatched namasteMap icd11Map) acc
      = acc ++ (table.filter (fun mapping =>
            JsMap.has namasteMap (str mapping.namaste_code)
              && JsMap.has icd11Map (str mapping.icd11_code))).map
          (fun mapping =>
            { suggestion_id := mapping.namaste_code ++ "-" ++ mapping.icd11_code,
              namaste_diagnosis := JsMap.get namasteMap (str mapping.namaste_code),
              icd11_diagnosis := JsMap.get icd11Map (str mapping.icd11_code),
              confidence := mapping.confidence }) := by
  induction table generalizing acc with
  | nil => simp
  | cons r rest ih =>
    simp only [List.foldl, ih]
    by_cases h : (JsMap.has namasteMap (str r.namaste_code)
        && JsMap.has icd11Map (str r.icd11_code)) = true
    · simp [pushIfMatched, h, List.filter]
    · simp [pushIfMatched, h, List.filter]

/-- On result sequences the consolidation step completes, and its output is
the table walked in order. -/
theorem consolidate_eq_walkTable (table : List MappingRecord) (icd11Results namasteResults : List JsVal)
    (hI : isResultSeq icd11Results = true) (hN : isResultSeq namasteResults = true) :
    consolidate table (arr icd11Results) (arr namasteResults)
      = .ok (walkTable table icd11Results namasteResults) := by
  simp only [consolidate, callMap, mapItems_codeEntry hI, mapItems_codeEntry hN,
    foldl_pushIfMatched, has_lookup, get_lookup, List.nil_append]
  rfl

theorem hasCode_iff (c : String) (item : JsVal) :
    hasCode c item = true ↔ codeOf item = str c := by
  unfold hasCode
  cases codeOf item <;> simp

theorem any_hasCode_iff (c : String) (results : List JsVal) :
    results.any (hasCode c) = true ↔ ∃ item ∈ results, codeOf item = str c := by
  simp [List.any_eq_true, hasCode_iff]

theorem walkTable_split (pre post : List MappingRecord) (R : MappingRecord)
    (icd11Results namasteResults : List JsVal) :
    walkTable (pre ++ R :: post) icd11Results namasteResults
      = walkTable pre icd11Results namasteResults
        ++ (if bothPresent icd11Results namasteResults R = true
              then [suggestionFor icd11Results namasteResults R] else [])
        ++ walkTable post icd11Results namasteResults := by
  by_cases h : bothPresent icd11Results namasteResults R = true
  · simp [walkTable, List.filter_append, List.filter, h]
  · simp [walkTable, List.filter_append, List.filter, h]

theorem lastWithCode_split (c : String) (before after : List JsVal) (item : JsVal)
    (hitem : codeOf item = str c) (hafter : ∀ later ∈ after, codeOf later ≠ str c) :
    lastWithCode c (before ++ item :: after) = item := by
  have h1 : hasCode c item = true := (hasCode_iff c item).2 hitem
  have h2 : after.filter (hasCode c) = [] := by
    rw [List.filter_eq_nil_iff]
    intro a ha hc
    exact hafter a ha ((hasCode_iff c a).1 hc)
  simp [lastWithCode, List.filter_append, List.filter, h1, h2]

/-! ## Consolidation: matched and unmatched records -/

/-- C1: for every mapping table, every pair of result sequences and every
record `R` of the table (the table split at `R` as `pre ++ R :: post`), if some
national result has code `R.namaste_code` and some international result has
code `R.icd11_code`, the consolidation step emits exactly one suggestion at the
place of `R` (the output is the output for `pre`, then that one suggestion,
then the output for `post`), whose `suggestion_id` is
`R.namaste_code + "-" + R.icd11_code` and whose confidence is `R.confidence`. -/
theorem matched_record_emits_one_suggestion (pre post : List MappingRecord) (R : MappingRecord)
    (icd11Results namasteResults : List JsVal)
    (hI : isResultSeq icd11Results = true) (hN : isResultSeq namasteResults = true)
    (hn : ∃ item ∈ namasteResults, codeOf item = str R.namaste_code)
    (hi : ∃ item ∈ icd11Results, codeOf item = str R.icd11_code) :
    ∃ (s : Suggestion) (A B : List Suggestion),
      consolidate pre (arr icd11Results) (arr namasteResults) = .ok A
      ∧ consolidate post (arr icd11Results) (arr namasteResults) = .ok B
      ∧ consolidate (pre ++ R :: post) (arr icd11Results) (arr namasteResults) = .ok (A ++ s :: B)
      ∧ s.suggestion_id = R.namaste_code ++ "-" ++ R.icd11_code
      ∧ s.confidence = R.confidence := by
  have hb : bothPresent icd11Results namasteResults R = true := by
    simp only [bothPresent, Bool.and_eq_true]
    exact ⟨(any_hasCode_iff _ _).2 hn, (any_hasCode_iff _ _).2 hi⟩
  refine ⟨suggestionFor icd11Results namasteResults R, walkTable pre icd11Results namasteResults,
    walkTable post icd11Results namasteResults, consolidate_eq_walkTable _ _ _ hI hN,
    consolidate_eq_walkTable _ _ _ hI hN, ?_, rfl, rfl⟩
  rw [consolidate_eq_walkTable _ _ _ hI hN, walkTable_split]
  simp [hb]

/-- C1 at the table `localMapping`, national results containing `AY-A01.0` and
international results containing `MG00.1`: one suggestion, with identifier
`AY-A01.0-MG00.1` and confidence 0.95. -/
theorem matched_record_emits_one_suggestion_witness :
    consolidate localMapping (arr [rheumatoid]) (arr [amavata])
        = .ok [{ suggestion_id := "AY-A01.0-MG00.1", namaste_diagnosis := amavata,
                 icd11_diagnosis := rheumatoid, confidence := 0.95 }]
    ∧ ∃ (s : Suggestion) (A B : List Suggestion),
      consolidate [] (arr [rheumatoid]) (arr [amavata]) = .ok A
      ∧ consolidate [jvaraRecord] (arr [rheumatoid]) (arr [amavata]) = .ok B
      ∧ consolidate ([] ++ amavataRecord :: [jvaraRecord]) (arr [rheumatoid]) (arr [amavata])
          = .ok (A ++ s :: B)
      ∧ s.suggestion_id = amavataRecord.namaste_code ++ "-" ++ amavataRecord.icd11_code
      ∧ s.confidence = amavataRecord.confidence :=
  ⟨rfl, matched_record_emits_one_suggestion [] [jvaraRecord] amavataRecord [rheumatoid] [amavata]
    rfl rfl ⟨amavata, List.mem_singleton.2 rfl, rfl⟩ ⟨rheumatoid, List.mem_singleton.2 rfl, rfl⟩⟩

/-- C2: for every mapping table and every pair of result sequences, a record
`R` of the table (split as `pre ++ R :: post`) whose `namaste_code` is the code
of no national result, or whose `icd11_code` is the code of no international
result, contributes no suggestion; every emitted suggestion comes from a
record of the table whose two codes both occur in the current results; and an
empty table, or an empty result sequence on either side, gives no
suggestion. -/
theorem unmatched_record_emits_nothing (table : List MappingRecord)
    (icd11Results namasteResults : List JsVal)
    (hI : isResultSeq icd11Results = true) (hN : isResultSeq namasteResults = true) :
    (∀ (pre post : List MappingRecord) (R : MappingRecord),
        ((¬ ∃ item ∈ namasteResults, codeOf item = str R.namaste_code)
          ∨ (¬ ∃ item ∈ icd11Results, codeOf item = str R.icd11_code)) →
        ∃ A B : List Suggestion,
          consolidate pre (arr icd11Results) (arr namasteResults) = .ok A
          ∧ consolidate post (arr icd11Results) (arr namasteResults) = .ok B
          ∧ consolidate (pre ++ R :: post) (arr icd11Results) (arr namasteResults) = .ok (A ++ B))
    ∧ (∃ out : List Suggestion,
        consolidate table (arr icd11Results) (arr namasteResults) = .ok out
        ∧ ∀ s ∈ out, ∃ R ∈ table,
            (∃ item ∈ namasteResults, codeOf item = str R.namaste_code)
            ∧ (∃ item ∈ icd11Results, codeOf item = str R.icd11_code)
            ∧ s.suggestion_id = R.namaste_code ++ "-" ++ R.icd11_code
            ∧ s.confidence = R.confidence)
    ∧ consolidate [] (arr icd11Results) (arr namasteResults) = .ok []
    ∧ consolidate table (arr []) (arr namasteResults) = .ok []
    ∧ consolidate table (arr icd11Results) (arr []) = .ok [] := by
  refine ⟨?_, ?_, ?_, ?_, ?_⟩
  · intro pre post R h
    have hb : ¬ bothPresent icd11Results namasteResults R = true := by
      simp only [bothPresent, Bool.and_eq_true, any_hasCode_iff]
      rintro ⟨h1, h2⟩
      cases h with
      | inl h => exact h h1
      | inr h => exact h h2
    refine ⟨walkTable pre icd11Results namasteResults, walkTable post icd11Results namasteResults,
      consolidate_eq_walkTable _ _ _ hI hN, consolidate_eq_walkTable _ _ _ hI hN, ?_⟩
    rw [consolidate_eq_walkTable _ _ _ hI hN, walkTable_split]
    simp [hb]
  · refine ⟨_, consolidate_eq_walkTable _ _ _ hI hN, ?_⟩
    intro s hs
    simp only [walkTable, List.mem_map, List.mem_filter] at hs
    obtain ⟨R, ⟨hR, hb⟩, rfl⟩ := hs
    simp only [bothPresent, Bool.and_eq_true, any_hasCode_iff] at hb
    exact ⟨R, hR, hb.1, hb.2, rfl, rfl⟩
  · rw [consolidate_eq_walkTable _ _ _ hI hN]
    rfl
  · rw [consolidate_eq_walkTable table [] namasteResults rfl hN]
    simp [walkTable, bothPresent]
  · rw [consolidate_eq_walkTable table icd11Results [] hI rfl]
    simp [walkTable, bothPresent]

/-- C2 at the table with the one record `AY-A01.0`/`MG00.1`, national results
containing `AY-A01.0` and international results containing only `MG10.0`: no
suggestion. -/
theorem unmatched_record_emits_nothing_witness :
    consolidate [amavataRecord] (arr [fever]) (arr [amavata]) = .ok [] := by
  obtain ⟨A, B, hA, hB, h⟩ :=
    (unmatched_record_emits_nothing [amavataRecord] [fever] [amavata] rfl rfl).1
      [] [] amavataRecord
      (Or.inr (by
        rintro ⟨item, hmem, hcode⟩
        rw [List.mem_singleton] at hmem
        subst hmem
        simp [codeOf, fever, getProp, List.lookup, amavataRecord] at hcode))
  have hA' : A = [] := by
    have : consolidate [] (arr [fever]) (arr [amavata]) = .ok [] := rfl
    rw [this] at hA
    exact (Except.ok.inj hA).symm
  have hB' : B = [] := by
    have : consolidate [] (arr [fever]) (arr [amavata]) = .ok [] := rfl
    rw [this] at hB
    exact (Except.ok.inj hB).symm
  subst hA' hB'
  exact h

/-! ## Consolidation: order of the output -/

/-- C4: for every mapping table and every pair of result sequences, the list
of suggestions is, in the same order, the list obtained by walking the table
from first to last record and keeping exactly the records whose two codes are
both present (`walkTable`); so when `R` precedes `S` in the table and both are
matched, the suggestion of `R` precedes that of `S`, whatever the
confidences. -/
theorem suggestions_follow_table_order (table : List MappingRecord)
    (icd11Results namasteResults : List JsVal)
    (hI : isResultSeq icd11Results = true) (hN : isResultSeq namasteResults = true) :
    consolidate table (arr icd11Results) (arr namasteResults)
        = .ok (walkTable table icd11Results namasteResults)
    ∧ ∀ (a b c : List MappingRecord) (R S : MappingRecord),
        table = a ++ R :: (b ++ S :: c) →
        bothPresent icd11Results namasteResults R = true →
        bothPresent icd11Results namasteResults S = true →
        ∃ A B C : List Suggestion,
          consolidate table (arr icd11Results) (arr namasteResults)
            = .ok (A ++ suggestionFor icd11Results namasteResults R
                    :: (B ++ suggestionFor icd11Results namasteResults S :: C)) := by
  refine ⟨consolidate_eq_walkTable _ _ _ hI hN, ?_⟩
  intro a b c R S ht hR hS
  refine ⟨walkTable a icd11Results namasteResults, walkTable b icd11Results namasteResults,
    walkTable c icd11Results namasteResults, ?_⟩
  rw [consolidate_eq_walkTable _ _ _ hI hN, ht, walkTable_split, walkTable_split]
  simp [hR, hS]

/-- C4 at a table that lists the record of confidence 0.90 before the record
of confidence 0.95: the suggestions come out in that order. -/
theorem suggestions_follow_table_order_witness :
    consolidate [jvaraRecord, amavataRecord] (arr [rheumatoid, fever]) (arr [amavata, jvara])
      = .ok [{ suggestion_id := "AY-B01.1-MG10.0", namaste_diagnosis := jvara,
               icd11_diagnosis := fever, confidence := 0.90 },
             { suggestion_id := "AY-A01.0-MG00.1", namaste_diagnosis := amavata,
               icd11_diagnosis := rheumatoid, confidence := 0.95 }] :=
  (suggestions_follow_table_order [jvaraRecord, amavataRecord] [rheumatoid, fever]
    [amavata, jvara] rfl rfl).1

/-! ## Consolidation: duplicate codes -/

/-- C10: for every result sequence, the lookup built from it maps a code to
the last entry of the sequence that carries the code (the sequence split as
`before ++ item :: after` with no entry of `after` carrying the code), also
when the code occurs several times in `before`; the diagnoses attached to the
suggestion of a record with these codes are those last entries, and the record
still contributes exactly one suggestion. -/
theorem duplicate_codes_last_write_wins (pre post : List MappingRecord) (R : MappingRecord)
    (nBefore nAfter iBefore iAfter : List JsVal) (nItem iItem : JsVal)
    (hN : isResultSeq (nBefore ++ nItem :: nAfter) = true)
    (hI : isResultSeq (iBefore ++ iItem :: iAfter) = true)
    (hn : codeOf nItem = str R.namaste_code)
    (hnAfter : ∀ later ∈ nAfter, codeOf later ≠ str R.namaste_code)
    (hi : codeOf iItem = str R.icd11_code)
    (hiAfter : ∀ later ∈ iAfter, codeOf later ≠ str R.icd11_code) :
    (∃ entries, callMap (arr (nBefore ++ nItem :: nAfter)) codeEntry = .ok entries
        ∧ JsMap.has (JsMap.ofEntries entries) (str R.namaste_code) = true
        ∧ JsMap.get (JsMap.ofEntries entries) (str R.namaste_code) = nItem)
    ∧ (∃ entries, callMap (arr (iBefore ++ iItem :: iAfter)) codeEntry = .ok entries
        ∧ JsMap.has (JsMap.ofEntries entries) (str R.icd11_code) = true
        ∧ JsMap.get (JsMap.ofEntries entries) (str R.icd11_code) = iItem)
    ∧ ∃ A B : List Suggestion,
        consolidate pre (arr (iBefore ++ iItem :: iAfter)) (arr (nBefore ++ nItem :: nAfter)) = .ok A
        ∧ consolidate post (arr (iBefore ++ iItem :: iAfter)) (arr (nBefore ++ nItem :: nAfter)) = .ok B
        ∧ consolidate (pre ++ R :: post) (arr (iBefore ++ iItem :: iAfter))
            (arr (nBefore ++ nItem :: nAfter))
          = .ok (A ++ { suggestion_id := R.namaste_code ++ "-" ++ R.icd11_code,
                        namaste_diagnosis := nItem, icd11_diagnosis := iItem,
                        confidence := R.confidence } :: B) := by
  have hpn : (nBefore ++ nItem :: nAfter).any (hasCode R.namaste_code) = true :=
    (any_hasCode_iff _ _).2 ⟨nItem, by simp, hn⟩
  have hpi : (iBefore ++ iItem :: iAfter).any (hasCode R.icd11_code) = true :=
    (any_hasCode_iff _ _).2 ⟨iItem, by simp, hi⟩
  refine ⟨⟨_, mapItems_codeEntry hN, ?_, ?_⟩, ⟨_, mapItems_codeEntry hI, ?_, ?_⟩, ?_⟩
  · rw [has_lookup]; exact hpn
  · rw [get_lookup]; exact lastWithCode_split _ _ _ _ hn hnAfter
  · rw [has_lookup]; exact hpi
  · rw [get_lookup]; exact lastWithCode_split _ _ _ _ hi hiAfter
  · refine ⟨_, _, consolidate_eq_walkTable _ _ _ hI hN, consolidate_eq_walkTable _ _ _ hI hN, ?_⟩
    rw [consolidate_eq_walkTable _ _ _ hI hN, walkTable_split]
    have hb : bothPresent (iBefore ++ iItem :: iAfter) (nBefore ++ nItem :: nAfter) R = true := by
      simp only [bothPresent, Bool.and_eq_true]
      exact ⟨hpn, hpi⟩
    simp only [hb, if_true, suggestionFor, lastWithCode_split _ _ _ _ hn hnAfter,
      lastWithCode_split _ _ _ _ hi hiAfter]
    simp

/-- C10 at national results that carry the code `AY-A01.0` twice: the lookup
and the suggestion hold the second entry, and one suggestion is emitted. -/
theorem duplicate_codes_last_write_wins_witness :
    consolidate localMapping (arr [rheumatoid]) (arr [amavata, amavataAgain])
        = .ok [{ suggestion_id := "AY-A01.0-MG00.1", namaste_diagnosis := amavataAgain,
                 icd11_diagnosis := rheumatoid, confidence := 0.95 }]
    ∧ ∃ entries, callMap (arr ([amavata] ++ amavataAgain :: [])) codeEntry = .ok entries
        ∧ JsMap.has (JsMap.ofEntries entries) (str amavataRecord.namaste_code) = true
        ∧ JsMap.get (JsMap.ofEntries entries) (str amavataRecord.namaste_code) = amavataAgain :=
  ⟨rfl, (duplicate_codes_last_write_wins [] [jvaraRecord] amavataRecord [amavata] [] [] []
    amavataAgain rheumatoid rfl rfl rfl (by simp) rfl (by simp)).1⟩

/-! ## Consolidation: reordering the results -/

theorem isResultSeq_perm {l l' : List JsVal} (p : l.Perm l') (h : isResultSeq l = true) :
    isResultSeq l' = true := by
  simp only [isResultSeq, List.all_eq_true] at h ⊢
  intro x hx
  exact h x (p.mem_iff.2 hx)

theorem any_perm {l l' : List JsVal} (p : l.Perm l') (f : JsVal → Bool) :
    l'.any f = l.any f := by
  rw [Bool.eq_iff_iff]
  simp only [List.any_eq_true]
  constructor
  · rintro ⟨x, hx, hf⟩
    exact ⟨x, p.mem_iff.2 hx, hf⟩
  · rintro ⟨x, hx, hf⟩
    exact ⟨x, p.mem_iff.1 hx, hf⟩

theorem bothPresent_perm {I I' N N' : List JsVal} (pI : I.Perm I') (pN : N.Perm N') :
    bothPresent I' N' = bothPresent I N := by
  funext R
  simp only [bothPresent, any_perm pI, any_perm pN]

theorem filter_hasCode_of_distinct (c : String) {l : List JsVal} (h : DistinctCodes l) :
    l.filter (hasCode c) = [] ∨ ∃ item, l.filter (hasCode c) = [item] := by
  have hp : (l.filter (hasCode c)).Pairwise
      (fun a b => ∀ c, hasCode c a = true → hasCode c b = false) :=
    List.Pairwise.sublist (List.filter_sublist l) h
  cases hf : l.filter (hasCode c) with
  | nil => exact Or.inl rfl
  | cons a rest =>
    cases rest with
    | nil => exact Or.inr ⟨a, rfl⟩
    | cons b rest' =>
      exfalso
      rw [hf] at hp
      have ha : hasCode c a = true := by
        have : a ∈ l.filter (hasCode c) := by rw [hf]; simp
        exact (List.mem_filter.1 this).2
      have hb : hasCode c b = true := by
        have : b ∈ l.filter (hasCode c) := by rw [hf]; simp
        exact (List.mem_filter.1 this).2
      have := (List.pairwise_cons.1 hp).1 b (by simp) c ha
      rw [hb] at this
      exact Bool.noConfusion this

theorem lastWithCode_perm (c : String) {l l' : List JsVal} (p : l.Perm l') (h : DistinctCodes l) :
    lastWithCode c l' = lastWithCode c l := by
  have pf : (l.filter (hasCode c)).Perm (l'.filter (hasCode c)) := p.filter _
  unfold lastWithCode
  rcases filter_hasCode_of_distinct c h with h0 | ⟨item, h1⟩
  · rw [h0] at pf ⊢
    rw [List.nil_perm.1 pf]
  · rw [h1] at pf ⊢
    rw [List.singleton_perm.1 pf]

theorem idAndConfidence_walkTable (table : List MappingRecord) (I N : List JsVal) :
    (walkTable table I N).map idAndConfidence
      = (table.filter (bothPresent I N)).map
          (fun R => (R.namaste_code ++ "-" ++ R.icd11_code, R.confidence)) := by
  simp [walkTable, List.map_map, Function.comp_def, idAndConfidence, suggestionFor]

/-- C3: the claim fails when a code occurs twice in one result sequence, as
the lookup keeps the last entry under a code: swapping the two national results
that carry `AY-A01.0` changes the diagnosis attached to the suggestion. -/
theorem reordering_duplicates_changes_suggestions :
    [amavata, amavataAgain].Perm [amavataAgain, amavata]
    ∧ ∃ out out' : List Suggestion,
        consolidate localMapping (arr [rheumatoid]) (arr [amavata, amavataAgain]) = .ok out
        ∧ consolidate localMapping (arr [rheumatoid]) (arr [amavataAgain, amavata]) = .ok out'
        ∧ ¬ (∀ s, s ∈ out ↔ s ∈ out') := by
  refine ⟨List.Perm.swap _ _ _, _, _, rfl, rfl, ?_⟩
  intro h
  have hm := (h { suggestion_id := "AY-A01.0-MG00.1", namaste_diagnosis := amavataAgain,
                  icd11_diagnosis := rheumatoid, confidence := 0.95 }).1
    (List.mem_singleton.2 rfl)
  have he := List.mem_singleton.1 hm
  have hd : amavataAgain = amavata := congrArg Suggestion.namaste_diagnosis he
  simp [amavata, amavataAgain] at hd

/-- C3, amended: for every mapping table, every pair of result sequences and
every reordering of either sequence, the consolidation step emits suggestions
for the same records in the same order, with the same `suggestion_id` and the
same confidence; and when no code occurs twice within the national results and
none occurs twice within the international results, the two outputs are equal,
attached diagnoses included. -/
theorem reordering_results_keeps_suggestions (table : List MappingRecord)
    (I I' N N' : List JsVal)
    (hI : isResultSeq I = true) (hN : isResultSeq N = true)
    (pI : I.Perm I') (pN : N.Perm N') :
    ∃ out out' : List Suggestion,
      consolidate table (arr I) (arr N) = .ok out
      ∧ consolidate table (arr I') (arr N') = .ok out'
      ∧ out'.map idAndConfidence = out.map idAndConfidence
      ∧ (DistinctCodes I → DistinctCodes N → out' = out) := by
  refine ⟨_, _, consolidate_eq_walkTable _ _ _ hI hN,
    consolidate_eq_walkTable _ _ _ (isResultSeq_perm pI hI) (isResultSeq_perm pN hN), ?_, ?_⟩
  · rw [idAndConfidence_walkTable, idAndConfidence_walkTable, bothPresent_perm pI pN]
  · intro dI dN
    simp only [walkTable, bothPresent_perm pI pN]
    apply List.map_congr_left
    intro R _
    simp only [suggestionFor, lastWithCode_perm _ pI dI, lastWithCode_perm _ pN dN]

/-- C3 amended, at two results per side listed in the opposite order: no code
occurs twice on either side, and the two outputs are equal. -/
theorem reordering_results_keeps_suggestions_witness :
    DistinctCodes [rheumatoid, fever] ∧ DistinctCodes [amavata, jvara]
    ∧ consolidate localMapping (arr [fever, rheumatoid]) (arr [jvara, amavata])
        = consolidate localMapping (arr [rheumatoid, fever]) (arr [amavata, jvara]) := by
  have dI : DistinctCodes [rheumatoid, fever] := by
    simp [DistinctCodes, hasCode, codeOf, getProp, rheumatoid, fever, List.lookup]
  have dN : DistinctCodes [amavata, jvara] := by
    simp [DistinctCodes, hasCode, codeOf, getProp, amavata, jvara, List.lookup]
  obtain ⟨out, out', h, h', _, heq⟩ :=
    reordering_results_keeps_suggestions localMapping [rheumatoid, fever] [fever, rheumatoid]
      [amavata, jvara] [jvara, amavata] rfl rfl (List.Perm.swap _ _ _) (List.Perm.swap _ _ _)
  rw [h, h', heq dI dN]
  exact ⟨dI, dN, rfl⟩

/-! ## The EMR submitter -/

theorem submitDiagnosisToEMR_total (env : Env) (patientData : JsVal) :
    ∃ outcome, submitDiagnosisToEMR env patientData = .ok outcome := by
  unfold submitDiagnosisToEMR
  cases h : axiosRequest (env.emrApi patientData) with
  | error e => exact ⟨_, rfl⟩
  | ok response =>
    by_cases hs : response.status = 201
    · exact ⟨_, by simp [tryCatch, bind, Except.bind, pure, Except.pure, hs]; rfl⟩
    · exact ⟨_, by simp [tryCatch, bind, Except.bind, pure, Except.pure, hs]; rfl⟩

/-- C5: `submitDiagnosisToEMR` never throws, and reports success if and only
if the EMR call completed with status 201: a 201 response gives
`{status: 'success'}`; every other response and every transport error gives
`{status: 'error'}` with one of two fixed messages, `'Failed to submit
diagnosis'` for a completed call with another 2xx status and `'Internal server
error'` for a thrown error, whatever the error's detail or the response body. -/
theorem emr_success_iff_201 (env : Env) (patientData : JsVal) :
    (∀ data, env.emrApi patientData = .response 201 data →
        submitDiagnosisToEMR env patientData
          = .ok { status := "success", message := "Diagnosis submitted successfully" })
    ∧ (∀ status data, env.emrApi patientData = .response status data → status ≠ 201 →
        submitDiagnosisToEMR env patientData
          = .ok { status := "error",
                  message := if 200 ≤ status ∧ status < 300 then "Failed to submit diagnosis"
                             else "Internal server error" })
    ∧ (∀ reason, env.emrApi patientData = .noResponse reason →
        submitDiagnosisToEMR env patientData
          = .ok { status := "error", message := "Internal server error" })
    ∧ ∃ result, submitDiagnosisToEMR env patientData = .ok result
        ∧ (result.status = "success" ↔ ∃ data, env.emrApi patientData = .response 201 data)
        ∧ (result.status = "success" ∨ result.status = "error") := by
  have h201 : ∀ data, env.emrApi patientData = .response 201 data →
      submitDiagnosisToEMR env patientData
        = .ok { status := "success", message := "Diagnosis submitted successfully" } := by
    intro data h
    simp [submitDiagnosisToEMR, h, axiosRequest, tryCatch, bind, Except.bind, pure, Except.pure]
  have hother : ∀ status data, env.emrApi patientData = .response status data → status ≠ 201 →
      submitDiagnosisToEMR env patientData
        = .ok { status := "error",
                message := if 200 ≤ status ∧ status < 300 then "Failed to submit diagnosis"
                           else "Internal server error" } := by
    intro status data h hs
    by_cases h2 : 200 ≤ status ∧ status < 300
    · simp [submitDiagnosisToEMR, h, axiosRequest, tryCatch, bind, Except.bind, pure,
        Except.pure, h2, hs]
    · simp [submitDiagnosisToEMR, h, axiosRequest, tryCatch, bind, Except.bind, pure,
        Except.pure, h2]
  have hnone : ∀ reason, env.emrApi patientData = .noResponse reason →
      submitDiagnosisToEMR env patientData
        = .ok { status := "error", message := "Internal server error" } := by
    intro reason h
    simp [submitDiagnosisToEMR, h, axiosRequest, tryCatch, bind, Except.bind, pure, Except.pure]
  refine ⟨h201, hother, hnone, ?_⟩
  cases hx : env.emrApi patientData with
  | noResponse reason =>
    refine ⟨_, hnone reason hx, ?_, Or.inr rfl⟩
    simp
  | response status data =>
    by_cases hs : status = 201
    · subst hs
      exact ⟨_, h201 data hx, ⟨fun _ => ⟨data, rfl⟩, fun _ => rfl⟩, Or.inl rfl⟩
    · refine ⟨_, hother status data hx hs, ?_, Or.inr rfl⟩
      simp [hs]

/-- C5 at an EMR answering 201 (success) and at an EMR answering 500
(failure). -/
theorem emr_success_iff_201_witness :
    submitDiagnosisToEMR (emrAnswering 201) (obj [])
        = .ok { status := "success", message := "Diagnosis submitted successfully" }
    ∧ submitDiagnosisToEMR (emrAnswering 500) (obj [])
        = .ok { status := "error", message := "Internal server error" } :=
  ⟨(emr_success_iff_201 (emrAnswering 201) (obj [])).1 (obj []) rfl,
   (emr_success_iff_201 (emrAnswering 500) (obj [])).2.1 500 (obj []) rfl (by decide)⟩

/-! ## The search endpoint: validation of the query -/

/-- C7: for every request to `GET /api/search-codes` whose parameter `q` is
absent or the empty string, the handler responds 400 with an error body and
calls neither `getICD11Codes` nor `getNAMASTECodes`; for every request whose
`q` is a non-empty string, both clients are called with exactly that query. -/
theorem search_rejects_missing_query (env : Env) (table : List MappingRecord) (req : Request) :
    ((req.query.lookup "q" = none ∨ req.query.lookup "q" = some (str "")) →
        (searchCodes env table req).calls = []
        ∧ (searchCodes env table req).result
            = .ok { status := 400, body := .errorMessage "Query parameter 'q' is required" })
    ∧ (∀ q : String, q ≠ "" → req.query.lookup "q" = some (str q) →
        (searchCodes env table req).calls = [.getICD11Codes (str q), .getNAMASTECodes (str q)]) := by
  constructor
  · intro h
    rcases h with h | h <;> simp [searchCodes, h, truthy]
  · intro q hq h
    simp [searchCodes, h, truthy, hq]

/-- C7 at a request without `q`, and at a request with `q=fever`. -/
theorem search_rejects_missing_query_witness :
    ((searchCodes (emrAnswering 201) localMapping { query := [], body := undefined }).calls = []
      ∧ (searchCodes (emrAnswering 201) localMapping { query := [], body := undefined }).result
          = .ok { status := 400, body := .errorMessage "Query parameter 'q' is required" })
    ∧ (searchCodes (emrAnswering 201) localMapping
          { query := [("q", str "fever")], body := undefined }).calls
        = [.getICD11Codes (str "fever"), .getNAMASTECodes (str "fever")] :=
  ⟨(search_rejects_missing_query (emrAnswering 201) localMapping
      { query := [], body := undefined }).1 (Or.inl rfl),
   (search_rejects_missing_query (emrAnswering 201) localMapping
      { query := [("q", str "fever")], body := undefined }).2 "fever" (by decide) rfl⟩

/-! ## The search endpoint: a failing terminology source -/

theorem getICD11Codes_of_failure (env : Env) (query : JsVal) (e : JsError)
    (h : axiosRequest (env.icd11Api query) = .error e) :
    getICD11Codes env query = .ok (arr []) := by
  simp [getICD11Codes, h, tryCatch, bind, Except.bind, pure, Except.pure]

theorem getNAMASTECodes_of_failure (env : Env) (query : JsVal) (e : JsError)
    (h : axiosRequest (env.namasteApi query) = .error e) :
    getNAMASTECodes env query = .ok (arr []) := by
  simp [getNAMASTECodes, h, tryCatch, bind, Except.bind, pure, Except.pure]

theorem searchCodes_result (env : Env) (table : List MappingRecord) (req : Request) (q : String)
    (hq : q ≠ "") (hreq : req.query.lookup "q" = some (str q)) (I N : List JsVal)
    (hI : getICD11Codes env (str q) = .ok (arr I)) (hN : getNAMASTECodes env (str q) = .ok (arr N))
    (sI : isResultSeq I = true) (sN : isResultSeq N = true) :
    (searchCodes env table req).result
      = .ok { status := 200, body := .searchResult (walkTable table I N) (arr I) (arr N) } := by
  simp [searchCodes, hreq, truthy, hq, hI, hN, consolidate_eq_walkTable table I N sI sN,
    bind, Except.bind, pure, Except.pure]

/-- The failure path where the other client returned a sequence of results:
when the HTTP call of `getICD11Codes` (respectively `getNAMASTECodes`) fails,
that function returns the empty sequence instead of throwing; and if the other
client returned an array without `null` or `undefined` entries, the handler of
`GET /api/search-codes` responds 200 with empty raw results for the failed
side, the other side unchanged, and no suggestion. -/
theorem failed_source_with_result_seq (env : Env) (table : List MappingRecord)
    (req : Request) (q : String) (hq : q ≠ "") (hreq : req.query.lookup "q" = some (str q)) :
    (∀ query e, axiosRequest (env.icd11Api query) = .error e →
        getICD11Codes env query = .ok (arr []))
    ∧ (∀ query e, axiosRequest (env.namasteApi query) = .error e →
        getNAMASTECodes env query = .ok (arr []))
    ∧ (∀ e N, axiosRequest (env.icd11Api (str q)) = .error e →
        getNAMASTECodes env (str q) = .ok (arr N) → isResultSeq N = true →
        (searchCodes env table req).result
          = .ok { status := 200, body := .searchResult [] (arr []) (arr N) })
    ∧ (∀ e I, axiosRequest (env.namasteApi (str q)) = .error e →
        getICD11Codes env (str q) = .ok (arr I) → isResultSeq I = true →
        (searchCodes env table req).result
          = .ok { status := 200, body := .searchResult [] (arr I) (arr []) }) := by
  refine ⟨getICD11Codes_of_failure env, getNAMASTECodes_of_failure env, ?_, ?_⟩
  · intro e N he hN sN
    rw [searchCodes_result env table req q hq hreq [] N
      (getICD11Codes_of_failure env _ e he) hN rfl sN]
    simp [walkTable, bothPresent]
  · intro e I he hI sI
    rw [searchCodes_result env table req q hq hreq I []
      hI (getNAMASTECodes_of_failure env _ e he) sI rfl]
    simp [walkTable, bothPresent]

/-- A search for `amavata` while the international service answers 503 and the
national service answers with a list: the response carries the national
result, no international result and no suggestion. -/
theorem failed_source_with_result_seq_example :
    (searchCodes icd11Down localMapping { query := [("q", str "amavata")], body := undefined }).result
      = .ok { status := 200, body := .searchResult [] (arr []) (arr [amavata]) } :=
  (failed_source_with_result_seq icd11Down localMapping
      { query := [("q", str "amavata")], body := undefined } "amavata" (by decide) rfl).2.2.1
    (.error "Request failed with status code 503") [amavata] rfl rfl rfl

/-- C6: at a search for `amavata` while the HTTP call of `getICD11Codes`
fails (the international service answers 503) and the national service answers
200 with a JSON object, `getICD11Codes` returns the empty sequence, but
`getNAMASTECodes` returns the object, building the national lookup throws a
`TypeError` out of the handler, and no response is sent: the failing source
together with a surviving body that is not a list does fail the search. -/
theorem failing_source_with_object_body_raises :
    axiosRequest (icd11DownNamasteEnvelope.icd11Api (str "amavata"))
        = .error (.error "Request failed with status code 503")
    ∧ getICD11Codes icd11DownNamasteEnvelope (str "amavata") = .ok (arr [])
    ∧ getNAMASTECodes icd11DownNamasteEnvelope (str "amavata")
        = .ok (obj [("results", arr [amavata])])
    ∧ (searchCodes icd11DownNamasteEnvelope localMapping
          { query := [("q", str "amavata")], body := undefined }).calls
        = [.getICD11Codes (str "amavata"), .getNAMASTECodes (str "amavata")]
    ∧ (searchCodes icd11DownNamasteEnvelope localMapping
          { query := [("q", str "amavata")], body := undefined }).result
        = .error (.typeError "map is not a function") :=
  ⟨rfl, rfl, rfl, rfl, rfl⟩

/-! ## The search endpoint: a body that is not a list -/

/-- C9: at a national service that answers 200 with a JSON object,
`getNAMASTECodes` returns that object, which is not a list, and building the
lookup throws a `TypeError` out of the handler: no response is sent.  At the
same kind of body, `getICD11Codes` falls back to the empty list. -/
theorem namaste_object_body_raises :
    getNAMASTECodes namasteEnvelope (str "amavata") = .ok (obj [("results", arr [amavata])])
    ∧ (searchCodes namasteEnvelope localMapping
          { query := [("q", str "amavata")], body := undefined }).result
        = .error (.typeError "map is not a function")
    ∧ getICD11Codes icd11Envelope (str "amavata") = .ok (arr []) :=
  ⟨rfl, rfl, rfl⟩

/-! ## The submission endpoint -/

theorem getProp_of_truthy {v : JsVal} (h : truthy v = true) (name : String) :
    getProp v name = .ok (propOf v name) := by
  cases v <;> simp_all [truthy, getProp, propOf]

theorem missingPatientData_eq (data : JsVal) :
    missingPatientData data = .ok (!requiredFieldsTruthy data) := by
  unfold missingPatientData requiredFieldsTruthy
  by_cases hd : truthy data = true
  · simp only [hd, getProp_of_truthy hd, bind, Except.bind, pure, Except.pure]
    cases truthy (propOf data "patientId") <;>
      cases truthy (propOf data "namasteDiagnosis") <;> simp
  · simp [hd]

theorem patientPayload_ok {data : JsVal} (h : requiredFieldsTruthy data = true) :
    ∃ payload, patientPayload data = .ok payload := by
  simp only [requiredFieldsTruthy, Bool.and_eq_true] at h
  obtain ⟨⟨⟨hd, _⟩, hn⟩, hi⟩ := h
  simp [patientPayload, getProp_of_truthy hd, getProp_of_truthy hn, getProp_of_truthy hi,
    bind, Except.bind, pure, Except.pure]

/-- C8: the claim fails for a field that is present but falsy: a body whose
`patientId` is the empty string has all three fields, yet the handler responds
400 and does not call `submitDiagnosisToEMR`. -/
theorem present_but_empty_patientId_rejected :
    (∃ props, emptyPatientId = obj props
        ∧ (props.lookup "patientId").isSome = true
        ∧ (props.lookup "namasteDiagnosis").isSome = true
        ∧ (props.lookup "icd11Code").isSome = true)
    ∧ (submitPatientRecord (emrAnswering 201) { query := [], body := emptyPatientId }).calls = []
    ∧ (submitPatientRecord (emrAnswering 201) { query := [], body := emptyPatientId }).result
        = .ok { status := 400, body := .errorMessage "Missing required patient data" } :=
  ⟨⟨_, rfl, rfl, rfl, rfl⟩, rfl, rfl⟩

/-- C8, amended: for every request body, if the body is falsy or one of
`patientId`, `namasteDiagnosis`, `icd11Code` is absent or falsy (`null`,
`false`, `0`, the empty string), the handler responds 400 and does not call
`submitDiagnosisToEMR`; if the body and the three fields are truthy, it calls
`submitDiagnosisToEMR` exactly once, with the payload built from the body, and
responds 201 when the outcome status is `'success'` and 500 otherwise. -/
theorem submit_status_by_fields_and_outcome (env : Env) (req : Request) :
    (requiredFieldsTruthy req.body = false →
        (submitPatientRecord env req).calls = []
        ∧ (submitPatientRecord env req).result
            = .ok { status := 400, body := .errorMessage "Missing required patient data" })
    ∧ (∀ props name, req.body = obj props →
        name = "patientId" ∨ name = "namasteDiagnosis" ∨ name = "icd11Code" →
        props.lookup name = none → requiredFieldsTruthy req.body = false)
    ∧ (requiredFieldsTruthy req.body = true →
        ∃ payload outcome,
          patientPayload req.body = .ok payload
          ∧ submitDiagnosisToEMR env payload = .ok outcome
          ∧ (submitPatientRecord env req).calls = [.submitDiagnosisToEMR payload]
          ∧ (submitPatientRecord env req).result
              = .ok { status := if outcome.status = "success" then 201 else 500,
                      body := .emrOutcome outcome }) := by
  refine ⟨?_, ?_, ?_⟩
  · intro h
    simp [submitPatientRecord, missingPatientData_eq, h]
  · intro props name hb hname hnone
    rcases hname with rfl | rfl | rfl <;>
      simp [requiredFieldsTruthy, hb, propOf, getProp, hnone, truthy]
  · intro h
    obtain ⟨payload, hp⟩ := patientPayload_ok h
    obtain ⟨outcome, ho⟩ := submitDiagnosisToEMR_total env payload
    refine ⟨payload, outcome, hp, ho, ?_, ?_⟩
    · simp [submitPatientRecord, missingPatientData_eq, h, hp]
    · by_cases hs : outcome.status = "success"
      · simp [submitPatientRecord, missingPatientData_eq, h, hp, ho, hs]
      · simp [submitPatientRecord, missingPatientData_eq, h, hp, ho, hs]

/-- C8 amended, at a complete submission with the EMR answering 201 (response
201) and answering 500 (response 500), and at a body without `icd11Code`
(response 400, no call). -/
theorem submit_status_by_fields_and_outcome_witness :
    (∃ payload,
        (submitPatientRecord (emrAnswering 201) { query := [], body := completeSubmission }).calls
          = [.submitDiagnosisToEMR payload]
        ∧ (submitPatientRecord (emrAnswering 201) { query := [], body := completeSubmission }).result
          = .ok { status := 201,
                  body := .emrOutcome { status := "success",
                                        message := "Diagnosis submitted successfully" } })
    ∧ (submitPatientRecord (emrAnswering 500) { query := [], body := completeSubmission }).result
          = .ok { status := 500,
                  body := .emrOutcome { status := "error", message := "Internal server error" } }
    ∧ (submitPatientRecord (emrAnswering 201)
          { query := [], body := obj [("patientId", str "P-001")] }).calls = [] := by
  refine ⟨?_, ?_, ?_⟩
  · obtain ⟨payload, outcome, _, ho, hc, hr⟩ :=
      (submit_status_by_fields_and_outcome (emrAnswering 201)
        { query := [], body := completeSubmission }).2.2 rfl
    have : outcome = { status := "success", message := "Diagnosis submitted successfully" } := by
      have h2 : submitDiagnosisToEMR (emrAnswering 201) payload
          = .ok { status := "success", message := "Diagnosis submitted successfully" } := rfl
      rw [h2] at ho
      exact (Except.ok.inj ho).symm
    subst this
    exact ⟨payload, hc, hr⟩
  · rfl
  · exact ((submit_status_by_fields_and_outcome (emrAnswering 201)
      { query := [], body := obj [("patientId", str "P-001")] }).1 rfl).1

end NamasteServer
